import Mathlib

/-!
# microservice-core-golang: the `migrate` and `auth` packages

A shallow embedding of `migrate/cockroach.go` and `migrate/migrate.go`:
the connection-string builder `CockroachOptions.ConnectionString`, the
migration-path check `migrationsInPath`, the constructor `NewCockroach` and the
runner `Cockroach.Migrate`; and a model of the authentication middleware
`auth.HandlerValidateJWT`, whose implementation is not among the sources.

Conventions of the embedding:

* a Go pointer `*T` is an `Option T` (`none` is `nil`);
* a Go `error` is an `Option Error` (`none` is the `nil` error);
* a Go call ends in an `Outcome`: it returns, it panics, or it terminates the
  process (`os.Exit`);
* the standard library and the external migration library are collaborators:
  the filesystem, `sql.Open` and the library calls are parameters, and every
  call made to them is recorded in a trace of `Call`s.
-/

namespace MicroserviceCore

/-! ## Go runtime model -/

/-- A Go `error` value, identified with the message its `Error()` method gives. -/
structure Error where
  msg : String
  deriving DecidableEq, Repr

/-- How a Go function call ends. -/
inductive Outcome (α : Type) where
  /-- the call returned the value `a` to its caller -/
  | returned (a : α)
  /-- the call panicked with the runtime message `msg` -/
  | panicked (msg : String)
  /-- the process was terminated with exit status `code` after `logged` was written to the log -/
  | exited (code : Nat) (logged : String)
  deriving DecidableEq, Repr

/-- The message of the runtime panic raised by a nil pointer dereference. -/
def nilDeref : String := "runtime error: invalid memory address or nil pointer dereference"

/-- Go `errors.New`. -/
def errorsNew (text : String) : Error := ⟨text⟩

/-- Go `strconv.Itoa`: the base-10 rendering of a Go `int`, with a leading `-` when negative. -/
def Itoa (i : Int) : String :=
  if i < 0 then "-" ++ Nat.repr (-i).toNat else Nat.repr i.toNat

/-- The `%!(EXTRA ...)` trailer `fmt` appends for operands no verb consumed;
all operands of this package are strings. -/
def sprintfExtra : List String → String
  | [] => ""
  | a :: as => "%!(EXTRA " ++ ", ".intercalate ((a :: as).map fun x => "string=" ++ x) ++ ")"

/-- The formatting loop of `fmt.Sprintf` over the characters of the format,
for string operands and directives without flags or width (every format of
this package is of that kind): `%s` and `%v` consume and print the next
operand, `%%` prints a percent sign, a verb with no operand left prints
`%!verb(MISSING)`, another verb prints `%!verb(string=operand)`, a trailing
`%` prints `%!(NOVERB)`. -/
def sprintfLoop : List Char → List String → String → String
  | [], args, acc => acc ++ sprintfExtra args
  | ['%'], args, acc => acc ++ "%!(NOVERB)" ++ sprintfExtra args
  | '%' :: verb :: rest, args, acc =>
    if verb = '%' then sprintfLoop rest args (acc ++ "%")
    else match args with
      | [] => sprintfLoop rest [] (acc ++ "%!" ++ verb.toString ++ "(MISSING)")
      | a :: as =>
        if verb = 's' ∨ verb = 'v' then sprintfLoop rest as (acc ++ a)
        else sprintfLoop rest as (acc ++ "%!" ++ verb.toString ++ "(string=" ++ a ++ ")")
  | c :: rest, args, acc => sprintfLoop rest args (acc.push c)

/-- Go `fmt.Sprintf(format, args...)` for string operands. -/
def Sprintf (format : String) (args : List String) : String :=
  sprintfLoop format.data args ""

/-! ## migrate.go, cockroach.go: data model -/

/-- The struct `ConnectionOptions` (migrate.go). -/
structure ConnectionOptions where
  Host : String
  Port : Int
  User : String
  Pass : String
  Database : String
  deriving DecidableEq, Repr

/-- The struct `CockroachSSL` (cockroach.go). -/
structure CockroachSSL where
  CertPath : String
  KeyPath : String
  Mode : String
  RootCert : String
  deriving DecidableEq, Repr

/-- The struct `CockroachOptions` (cockroach.go); the embedded `*ConnectionOptions` and
`SSL *CockroachSSL` are pointers. -/
structure CockroachOptions where
  ConnectionOptions : Option ConnectionOptions
  MigrationTable : String
  Secure : Bool
  SSL : Option CockroachSSL
  deriving DecidableEq, Repr

/-- Constant `DefaultHost`. -/
def DefaultHost : String := "localhost"

/-- Constant `DefaultUser`. -/
def DefaultUser : String := "root"

/-- Constant `DefaultPort`. -/
def DefaultPort : String := "26257"

/-- Constant `DefaultDatabase`. -/
def DefaultDatabase : String := "service"

/-- Constant `DefaultMigrationTable`. -/
def DefaultMigrationTable : String := "schema_migrations"

/-! ## cockroach.go: `ConnectionString` -/

/-- The security part of `ConnectionString` (cockroach.go, `if co.Secure`):
the text written to the builder, or `none` when `co.SSL` is dereferenced while nil. -/
def connSecurity (co : CockroachOptions) : Option String :=
  if co.Secure then
    match co.SSL with
    | none => none
    | some ssl =>
      some (Sprintf "?sslcert=%s" [ssl.CertPath]
        ++ Sprintf "?sslkey=%s" [ssl.KeyPath]
        ++ Sprintf "?sslmode=%s" [ssl.Mode]
        ++ Sprintf "?sslrootcert=%s" [ssl.RootCert])
  else
    some "?sslmode=disable"

/-- Method `(co *CockroachOptions) ConnectionString() (string, error)`. The receiver
is a pointer; reading `co.ConnectionOptions` through a nil receiver panics. -/
def ConnectionString (co : Option CockroachOptions) : Outcome (String × Option Error) :=
  match co with
  | none => .panicked nilDeref
  | some co =>
    match co.ConnectionOptions with
    | none =>
      .returned (Sprintf "postgresql://%s@%s:%s/%s?sslmode=disable&x-migrations-table=%s"
        [DefaultUser, DefaultHost, DefaultPort, DefaultDatabase, DefaultMigrationTable], none)
    | some c =>
      let conn := "postgresql://"
      let conn := conn ++ (if c.User.length ≠ 0 then c.User else DefaultUser)
      let conn := conn ++ "@"
      let conn := conn ++ (if c.Host.length ≠ 0 then c.Host else DefaultHost)
      let conn := conn ++ ":"
      let conn := conn ++ (if c.Port ≠ 0 then Itoa c.Port else DefaultPort)
      let conn := conn ++ "/"
      let conn := conn ++ (if c.Database.length ≠ 0 then c.Database else DefaultDatabase)
      match connSecurity co with
      | none => .panicked nilDeref
      | some sec =>
        let conn := conn ++ sec
        let conn := conn ++
          (if co.MigrationTable.length ≠ 0 then
            Sprintf "&x-migrations-table=%s" [co.MigrationTable]
          else
            Sprintf "&x-migrations-table=%s" [])
        .returned (conn, none)

/-! ## Standard-library collaborators of `migrationsInPath` -/

/-- Go `os.ModeType`, the mask of the file-type bits of an `os.FileMode` (a `uint32`):
`ModeDir | ModeSymlink | ModeNamedPipe | ModeSocket | ModeDevice | ModeCharDevice | ModeIrregular`. -/
def ModeType : Nat := 2 ^ 31 + 2 ^ 27 + 2 ^ 26 + 2 ^ 25 + 2 ^ 24 + 2 ^ 21 + 2 ^ 19

/-- Go `os.ModeDir`. -/
def ModeDir : Nat := 2 ^ 31

/-- Go `FileMode.IsRegular`: `m&ModeType == 0`. -/
def FileMode.IsRegular (m : Nat) : Bool := m &&& ModeType == 0

/-- A directory entry as `ioutil.ReadDir` yields it: what `Name()` and `Mode()` return. -/
structure FileInfo where
  Name : String
  Mode : Nat
  deriving DecidableEq, Repr

/-- The filesystem as `ioutil.ReadDir` sees it: a path gives a read error or
the entries of the directory. -/
abbrev FileSystem := String → Except Error (List FileInfo)

/-- Go `os.IsPathSeparator` (Unix). -/
def IsPathSeparator (c : Char) : Bool := c == '/'

/-- The loop of `filepath.Ext`, `for i := len(path) - 1; i >= 0 && !os.IsPathSeparator(path[i]); i--`;
the argument `n` is `i + 1`. Go indexes bytes; `.` and `/` are single bytes that
never occur inside a multi-byte character, so indexing characters is the same scan. -/
def extLoop (path : List Char) : Nat → List Char
  | 0 => []
  | i + 1 =>
    match path[i]? with
    | none => []
    | some c =>
      if IsPathSeparator c then []
      else if c = '.' then path.drop i
      else extLoop path i

/-- Go `filepath.Ext`: the suffix beginning at the final dot in the final element
of `path`, empty if there is no dot. -/
def Ext (path : String) : String := ⟨extLoop path.data path.data.length⟩

/-! ## Calls to collaborators -/

/-- The calls the package makes that are observable from outside, in the order made. -/
inductive Call where
  /-- a call `ioutil.ReadDir(dirname)` -/
  | ReadDir (dirname : String)
  /-- a call `opts.ConnectionString()` -/
  | ConnectionString
  /-- a call `sql.Open(driverName, dataSourceName)` -/
  | sqlOpen (driverName dataSourceName : String)
  /-- a call `cockroachdb.WithInstance` on `c.db` with an empty `cockroachdb.Config` -/
  | WithInstance
  /-- a call `migrate.NewWithDatabaseInstance(sourceURL, databaseName, driver)` -/
  | NewWithDatabaseInstance (sourceURL databaseName : String)
  /-- a call `m.Up()` -/
  | Up
  /-- a call `log.Fatalf`, with the formatted message -/
  | logFatalf (message : String)
  deriving DecidableEq, Repr

/-! ## cockroach.go: `migrationsInPath` -/

/-- The `for _, file := range files` loop of `migrationsInPath`. -/
def sqlFileIn : List FileInfo → Bool
  | [] => false
  | file :: files =>
    if FileMode.IsRegular file.Mode && Ext file.Name == ".sql" then true
    else sqlFileIn files

/-- Function `migrationsInPath(path string) bool`, with the calls it made. -/
def migrationsInPath (fs : FileSystem) (path : String) : Bool × List Call :=
  if path.length = 0 then (false, [])
  else
    match fs path with
    | .error _ => (false, [.ReadDir path])
    | .ok files => (sqlFileIn files, [.ReadDir path])

/-! ## cockroach.go: `NewCockroach` and `Migrate` -/

/-- The struct `Cockroach` (cockroach.go); `DB` is `*sql.DB`. -/
structure Cockroach (DB : Type) where
  db : DB
  MigrationsPath : String
  deriving DecidableEq, Repr

/-- Function `NewCockroach(path string, opts *CockroachOptions) (*Cockroach, error)`,
with the calls it made; `sqlOpen` is `sql.Open`. -/
def NewCockroach {DB : Type} (fs : FileSystem) (sqlOpen : String → String → Except Error DB)
    (path : String) (opts : Option CockroachOptions) :
    Outcome (Option (Cockroach DB) × Option Error) × List Call :=
  let (ok, t) := migrationsInPath fs path
  if !ok then
    (.returned (none, some (errorsNew "migrate: no migration files in given path")), t)
  else
    match ConnectionString opts with
    | .panicked m => (.panicked m, t ++ [.ConnectionString])
    | .exited code l => (.exited code l, t ++ [.ConnectionString])
    | .returned (_, some err) => (.returned (none, some err), t ++ [.ConnectionString])
    | .returned (conn, none) =>
      match sqlOpen "postgres" conn with
      | .error err =>
        (.returned (none, some err), t ++ [.ConnectionString, .sqlOpen "postgres" conn])
      | .ok db =>
        (.returned (some ⟨db, path⟩, none), t ++ [.ConnectionString, .sqlOpen "postgres" conn])

/-- The external migration library: `cockroachdb.WithInstance` on a database
handle, `migrate.NewWithDatabaseInstance` and `Up` of the migration instance, each with
an arbitrary result. -/
structure Library (DB Driver Instance : Type) where
  WithInstance : DB → Except Error Driver
  NewWithDatabaseInstance : String → String → Driver → Except Error Instance
  Up : Instance → Option Error

/-- Go `fmt.Errorf` for string operands. -/
def Errorf (format : String) (args : List String) : Error := ⟨Sprintf format args⟩

/-- Method `(c *Cockroach) Migrate() error` for a non-nil receiver, with the calls it
made. `log.Fatalf` writes the formatted message to the log and calls `os.Exit(1)`. -/
def Migrate {DB Driver Instance : Type} (lib : Library DB Driver Instance) (c : Cockroach DB) :
    Outcome (Option Error) × List Call :=
  match lib.WithInstance c.db with
  | .error err =>
    let message := Sprintf "could not get migrations driver: %s" [err.msg]
    (.exited 1 message, [.WithInstance, .logFatalf message])
  | .ok driver =>
    let sourceURL := Sprintf "file://%s" [c.MigrationsPath]
    match lib.NewWithDatabaseInstance sourceURL "sql" driver with
    | .error err =>
      (.returned (some (Errorf "migrate: could not initialise migrations: %s" [err.msg])),
        [.WithInstance, .NewWithDatabaseInstance sourceURL "sql"])
    | .ok m =>
      (.returned (lib.Up m), [.WithInstance, .NewWithDatabaseInstance sourceURL "sql", .Up])

/-! ## Notions of the specification -/

/-- The string `s` ends with `suffix`. -/
def EndsWith (s suffix : String) : Prop := suffix.data <:+ s.data

instance EndsWith.decidable (s suffix : String) : Decidable (EndsWith s suffix) := by
  unfold EndsWith; infer_instance

/-- The number of `?` characters of a string. -/
def questionMarks (s : String) : Nat := s.data.count '?'

/-- The suffix of a name starting at its last `.`, if it has one. -/
def suffixFromLastDot : List Char → Option (List Char)
  | [] => none
  | c :: cs =>
    match suffixFromLastDot cs with
    | some s => some s
    | none => if c = '.' then some (c :: cs) else none

/-- An entry is a regular file whose extension, the suffix starting at the
last `.` of its name, is exactly `.sql`. -/
def IsSqlFile (f : FileInfo) : Prop :=
  FileMode.IsRegular f.Mode = true ∧ suffixFromLastDot f.Name.data = some ".sql".data

/-- The text `ConnectionString` writes before the security part, for supplied
connection options: scheme, user, host, port and database, each with its default. -/
def connBase (c : ConnectionOptions) : String :=
  "postgresql://" ++ (if c.User ≠ "" then c.User else "root") ++ "@"
    ++ (if c.Host ≠ "" then c.Host else "localhost") ++ ":"
    ++ (if c.Port ≠ 0 then Itoa c.Port else "26257") ++ "/"
    ++ (if c.Database ≠ "" then c.Database else "service")

/-- Two `CockroachOptions` that differ at most in `ConnectionOptions.Pass`:
the same `MigrationTable`, `Secure` and `SSL`, and connection options that are
both nil or agree on `Host`, `Port`, `User` and `Database`. -/
def SameButPass (a b : CockroachOptions) : Prop :=
  a.MigrationTable = b.MigrationTable ∧ a.Secure = b.Secure ∧ a.SSL = b.SSL ∧
    match a.ConnectionOptions, b.ConnectionOptions with
    | none, none => True
    | some x, some y =>
      x.Host = y.Host ∧ x.Port = y.Port ∧ x.User = y.User ∧ x.Database = y.Database
    | _, _ => False

/-! ## The `auth` package

The implementation of `auth.HandlerValidateJWT` and `auth.ConsumerFromContext`
is not among the sources; only its test `auth/http_test.go` is. The types below
follow the test's use of them, the behaviour follows the specification
(sections 3, 4.1, 4.2 and 6). Time is the Unix time in seconds, passed in as
`now`. The signing library is a collaborator given by `TokenLibrary`. -/

/-- The struct `auth.Consumer`: an identifier and the grants. -/
structure Consumer where
  ID : Int
  Grants : List String
  deriving DecidableEq, Repr

/-- The struct `auth.Claims`: the time-bound standard claims (Unix seconds)
and the embedded consumer. -/
structure Claims where
  IssuedAt : Int
  NotBefore : Int
  ExpiresAt : Int
  Consumer : Consumer
  deriving DecidableEq, Repr

/-- A reason for which the verifier rejects a well-formed token (section 4.1):
it expired `elapsed` seconds ago, it is not valid yet, or its signature does
not verify, with the text of the cryptographic failure. -/
inductive Failure where
  | expired (elapsed : Nat)
  | notValidYet
  | signature (reason : String)
  deriving DecidableEq, Repr

/-- The external signing library and key material: the claims a well-formed
token string carries, whether the signature of a token verifies under a key
(`none`) or the text of the cryptographic failure, the reason reported for
absent or malformed credentials, and, for a token with several failures at
once, the position in the list of its failures of the one the library reports
(taken modulo the length of the list). Keys are identified by numbers. -/
structure TokenLibrary where
  decode : String → Option Claims
  verifySignature : String → Nat → Option String
  noCredentials : String
  choice : List Failure → Nat

/-- The response envelope `response.Response`: code, message and data, where
`none` is the JSON `null`. -/
structure Envelope where
  code : Nat
  message : String
  data : Option String
  deriving DecidableEq, Repr

/-- One HTTP response written to the `http.ResponseWriter`: the status and the
JSON envelope of the body. -/
structure Written where
  status : Nat
  body : Envelope
  deriving DecidableEq, Repr

/-- The request-scoped context: the value under the private key of the `auth`
package, and the values stored by others. -/
structure Context where
  consumer : Option Consumer
  values : List (String × String)
  deriving DecidableEq, Repr

/-- The part of an `http.Request` the middleware reads: the `Authorization`
header, if present, and the context. -/
structure Request where
  Authorization : Option String
  ctx : Context
  deriving DecidableEq, Repr

/-- A downstream `http.HandlerFunc`, as the responses it writes for a request. -/
abbrev HandlerFunc := Request → List Written

/-- What serving one request through the middleware did: the responses the
middleware wrote itself, the requests it passed to the downstream handler, and
what that handler wrote. -/
structure Served where
  written : List Written
  dispatched : List Request
  downstream : List Written
  deriving DecidableEq, Repr

/-- Go `http.StatusUnauthorized`. -/
def StatusUnauthorized : Nat := 401

/-- Modelled from the spec: the rendering of an elapsed time of whole seconds
in the error message of an expired token, `<now - expires-at>` in section 8,
whose example is `1m0s`; the `auth` sources and the verifier are missing. It is
the form of Go's `time.Duration`: hours when there are any, minutes when there
are hours or minutes, then seconds. -/
def durationString (seconds : Nat) : String :=
  let h := seconds / 3600
  let m := seconds % 3600 / 60
  let s := seconds % 60
  if h ≠ 0 then Nat.repr h ++ "h" ++ Nat.repr m ++ "m" ++ Nat.repr s ++ "s"
  else if m ≠ 0 then Nat.repr m ++ "m" ++ Nat.repr s ++ "s"
  else Nat.repr s ++ "s"

/-- Modelled from the spec: the human-readable reason of a failure (section
4.1), missing from the sources with the verifier: the elapsed time since
expiry, `token is not valid yet`, or the cryptographic failure. -/
def Failure.reason : Failure → String
  | .expired elapsed => "token is expired by " ++ durationString elapsed
  | .notValidYet => "token is not valid yet"
  | .signature reason => reason

/-- Modelled from the spec: every failure of section 4.1 that applies to the
claims of a token at time `now` under the key of the broker; the verifier is
missing from the sources. A token is expired when `expires-at ≤ now` (section
8), not valid yet when `now` is before not-before or issued-at is in the
future, and wrongly signed when its signature does not verify under the key. -/
def failures (lib : TokenLibrary) (key : Nat) (now : Int) (token : String) (claims : Claims) :
    List Failure :=
  (if claims.ExpiresAt ≤ now then [.expired (now - claims.ExpiresAt).toNat] else [])
    ++ (if now < claims.NotBefore ∨ now < claims.IssuedAt then [.notValidYet] else [])
    ++ (match lib.verifySignature token key with
        | some reason => [.signature reason]
        | none => [])

/-- Modelled from the spec: the verifier of sections 2, 3 and 4.1, which is
missing from the sources; it consumes the key the broker supplies and the raw
token and yields the validated claims or the human-readable reason of the
failure. A token that carries no claims is malformed. A token to which no
failure applies is valid. The specification does not say which reason is
reported for a token to which several failures apply: that is the choice of
the library, `lib.choice`. -/
def verifyToken (lib : TokenLibrary) (key : Nat) (now : Int) (token : String) :
    Except String Claims :=
  match lib.decode token with
  | none => .error lib.noCredentials
  | some claims =>
    match failures lib key now token claims with
    | [] => .ok claims
    | f :: fs => .error (((f :: fs).getD (lib.choice (f :: fs) % (f :: fs).length) f).reason)

/-- Modelled from the spec: the token extraction of section 4.1, missing from
the sources: the portion of the `Authorization` header after the `Bearer `
prefix, `none` when the header is absent or does not start with it. -/
def bearerToken (r : Request) : Option String :=
  match r.Authorization with
  | none => none
  | some h =>
    match h.data with
    | 'B' :: 'e' :: 'a' :: 'r' :: 'e' :: 'r' :: ' ' :: token => some ⟨token⟩
    | _ => none

/-- Modelled from the spec: the failure response of sections 4.1 and 6, missing
from the sources: HTTP 401 with the envelope of code 401, the reason as
message, and null data. -/
def unauthorized (reason : String) : Written :=
  ⟨StatusUnauthorized, ⟨StatusUnauthorized, reason, none⟩⟩

/-- Modelled from the spec: `auth.HandlerValidateJWT` (section 4.1), missing
from the sources. Without a bearer token it answers 401 without invoking the
verifier; otherwise it invokes the verifier with the token and the key of the
broker. On failure it answers 401 with the reason of the verifier. On success
it stores the consumer of the claims in the context of a derived request,
leaving the other context values as they are, hands that request to the
downstream handler and writes nothing itself. -/
def HandlerValidateJWT (lib : TokenLibrary) (broker : Nat) (now : Int) (next : HandlerFunc)
    (r : Request) : Served :=
  match bearerToken r with
  | none => ⟨[unauthorized lib.noCredentials], [], []⟩
  | some token =>
    match verifyToken lib broker now token with
    | .error reason => ⟨[unauthorized reason], [], []⟩
    | .ok claims =>
      let r2 : Request := ⟨r.Authorization, ⟨some claims.Consumer, r.ctx.values⟩⟩
      ⟨[], [r2], next r2⟩

/-- Modelled from the spec: `auth.ConsumerFromContext` (section 4.2), missing
from the sources: the consumer stored in the context, the zero-value consumer
when there is none. -/
def ConsumerFromContext (ctx : Context) : Consumer :=
  match ctx.consumer with
  | some c => c
  | none => ⟨0, []⟩

/-! ## Facts about the embedding -/

theorem length_ne_zero_iff (s : String) : s.length ≠ 0 ↔ s ≠ "" := by
  cases s with
  | mk l => cases l <;> simp [String.length, String.ext_iff]

theorem Sprintf_migrations_table (t : String) :
    Sprintf "&x-migrations-table=%s" [t] = "&x-migrations-table=" ++ t := by
  apply String.ext
  simp [Sprintf, sprintfLoop, sprintfExtra]

theorem Sprintf_migrations_table_missing :
    Sprintf "&x-migrations-table=%s" [] = "&x-migrations-table=%!s(MISSING)" := by
  decide

theorem Sprintf_default (a b c d e : String) :
    Sprintf "postgresql://%s@%s:%s/%s?sslmode=disable&x-migrations-table=%s" [a, b, c, d, e]
      = "postgresql://" ++ a ++ "@" ++ b ++ ":" ++ c ++ "/" ++ d
          ++ "?sslmode=disable&x-migrations-table=" ++ e := by
  apply String.ext
  simp [Sprintf, sprintfLoop, sprintfExtra]

/-- With connection options supplied and `Secure` false, `ConnectionString`
returns the base text, `?sslmode=disable` and the migrations-table parameter. -/
theorem ConnectionString_insecure (co : CockroachOptions) (c : ConnectionOptions)
    (hc : co.ConnectionOptions = some c) (hs : co.Secure = false) :
    ConnectionString (some co) = .returned
      (connBase c ++ "?sslmode=disable"
        ++ (if co.MigrationTable ≠ "" then "&x-migrations-table=" ++ co.MigrationTable
            else "&x-migrations-table=%!s(MISSING)"), none) := by
  simp only [ConnectionString, hc, connSecurity, hs, length_ne_zero_iff,
    Sprintf_migrations_table, Sprintf_migrations_table_missing, connBase,
    DefaultUser, DefaultHost, DefaultPort, DefaultDatabase]
  simp

theorem extLoop_suffix (path : List Char) (n : Nat) : extLoop path n <:+ path := by
  induction n with
  | zero => exact List.nil_suffix
  | succ i ih =>
    unfold extLoop
    split
    · exact List.nil_suffix
    · split
      · exact List.nil_suffix
      · split
        · exact List.drop_suffix _ _
        · exact ih

theorem extLoop_append_sql (q : List Char) :
    extLoop (q ++ ['.', 's', 'q', 'l']) (q ++ ['.', 's', 'q', 'l']).length = ['.', 's', 'q', 'l'] := by
  have h : (q ++ ['.', 's', 'q', 'l']).length = q.length + 3 + 1 := by simp
  have h3 : (q ++ ['.', 's', 'q', 'l'])[q.length + 3]? = some 'l' := by
    rw [List.getElem?_append_right (by omega)]; simp
  have h2 : (q ++ ['.', 's', 'q', 'l'])[q.length + 2]? = some 'q' := by
    rw [List.getElem?_append_right (by omega)]; simp
  have h1 : (q ++ ['.', 's', 'q', 'l'])[q.length + 1]? = some 's' := by
    rw [List.getElem?_append_right (by omega)]; simp
  have h0 : (q ++ ['.', 's', 'q', 'l'])[q.length]? = some '.' := by
    rw [List.getElem?_append_right (by omega)]; simp
  rw [h]
  simp [extLoop, h3, h2, h1, h0, IsPathSeparator]

theorem Ext_eq_sql_iff (name : String) :
    Ext name = ".sql" ↔ ['.', 's', 'q', 'l'] <:+ name.data := by
  constructor
  · intro h
    have h2 : extLoop name.data name.data.length = ['.', 's', 'q', 'l'] := by
      have := congrArg String.data h
      simpa [Ext] using this
    rw [← h2]
    exact extLoop_suffix _ _
  · rintro ⟨q, hq⟩
    apply String.ext
    show extLoop name.data name.data.length = ['.', 's', 'q', 'l']
    rw [← hq]
    exact extLoop_append_sql q

theorem suffixFromLastDot_suffix (p s : List Char) (h : suffixFromLastDot p = some s) :
    s <:+ p := by
  induction p with
  | nil => simp [suffixFromLastDot] at h
  | cons c cs ih =>
    unfold suffixFromLastDot at h
    split at h
    · rename_i t ht
      cases h
      exact (ih ht).trans (List.suffix_cons c cs)
    · split at h
      · cases h
        exact List.suffix_refl _
      · cases h

theorem suffixFromLastDot_append_sql (q : List Char) :
    suffixFromLastDot (q ++ ['.', 's', 'q', 'l']) = some ['.', 's', 'q', 'l'] := by
  induction q with
  | nil => decide
  | cons c cs ih =>
    show suffixFromLastDot (c :: (cs ++ ['.', 's', 'q', 'l'])) = _
    unfold suffixFromLastDot
    rw [ih]

theorem suffixFromLastDot_eq_sql_iff (p : List Char) :
    suffixFromLastDot p = some ['.', 's', 'q', 'l'] ↔ ['.', 's', 'q', 'l'] <:+ p := by
  constructor
  · exact suffixFromLastDot_suffix p _
  · rintro ⟨q, hq⟩
    rw [← hq]
    exact suffixFromLastDot_append_sql q

/-- The extension `filepath.Ext` computes is `.sql` exactly when the suffix of
the name starting at its last `.` is `.sql`. -/
theorem Ext_eq_sql_iff_suffixFromLastDot (name : String) :
    Ext name = ".sql" ↔ suffixFromLastDot name.data = some ".sql".data := by
  rw [Ext_eq_sql_iff]
  exact (suffixFromLastDot_eq_sql_iff name.data).symm

theorem sqlFileIn_iff (files : List FileInfo) :
    sqlFileIn files = true ↔ ∃ f ∈ files, IsSqlFile f := by
  induction files with
  | nil => simp [sqlFileIn]
  | cons file files ih =>
    unfold sqlFileIn
    by_cases h : FileMode.IsRegular file.Mode = true ∧ Ext file.Name = ".sql"
    · have h2 : IsSqlFile file := ⟨h.1, (Ext_eq_sql_iff_suffixFromLastDot _).1 h.2⟩
      simp only [Bool.and_eq_true, beq_iff_eq, h, and_self, if_true, true_iff]
      exact ⟨file, List.mem_cons_self _ _, h2⟩
    · have h2 : ¬ IsSqlFile file := fun hf =>
        h ⟨hf.1, (Ext_eq_sql_iff_suffixFromLastDot _).2 hf.2⟩
      simp only [Bool.and_eq_true, beq_iff_eq, h, if_false, ih, List.mem_cons]
      constructor
      · rintro ⟨f, hf, hs⟩
        exact ⟨f, Or.inr hf, hs⟩
      · rintro ⟨f, hf | hf, hs⟩
        · exact absurd (hf ▸ hs) h2
        · exact ⟨f, hf, hs⟩

theorem Sprintf_sslcert (a : String) : Sprintf "?sslcert=%s" [a] = "?sslcert=" ++ a := by
  apply String.ext
  simp [Sprintf, sprintfLoop, sprintfExtra]

theorem Sprintf_sslkey (a : String) : Sprintf "?sslkey=%s" [a] = "?sslkey=" ++ a := by
  apply String.ext
  simp [Sprintf, sprintfLoop, sprintfExtra]

theorem Sprintf_sslmode (a : String) : Sprintf "?sslmode=%s" [a] = "?sslmode=" ++ a := by
  apply String.ext
  simp [Sprintf, sprintfLoop, sprintfExtra]

theorem Sprintf_sslrootcert (a : String) :
    Sprintf "?sslrootcert=%s" [a] = "?sslrootcert=" ++ a := by
  apply String.ext
  simp [Sprintf, sprintfLoop, sprintfExtra]

/-- With connection options and SSL material supplied and `Secure` true,
`ConnectionString` returns the base text followed by the four SSL parameters,
each written after a `?`, and the migrations-table parameter. -/
theorem ConnectionString_secure (co : CockroachOptions) (c : ConnectionOptions)
    (ssl : CockroachSSL) (hc : co.ConnectionOptions = some c) (hs : co.Secure = true)
    (hssl : co.SSL = some ssl) :
    ConnectionString (some co) = .returned
      (connBase c ++ ("?sslcert=" ++ ssl.CertPath ++ ("?sslkey=" ++ ssl.KeyPath)
          ++ ("?sslmode=" ++ ssl.Mode) ++ ("?sslrootcert=" ++ ssl.RootCert))
        ++ (if co.MigrationTable ≠ "" then "&x-migrations-table=" ++ co.MigrationTable
            else "&x-migrations-table=%!s(MISSING)"), none) := by
  simp only [ConnectionString, hc, connSecurity, hs, hssl, length_ne_zero_iff,
    Sprintf_migrations_table, Sprintf_migrations_table_missing, connBase,
    Sprintf_sslcert, Sprintf_sslkey, Sprintf_sslmode, Sprintf_sslrootcert,
    DefaultUser, DefaultHost, DefaultPort, DefaultDatabase]
  simp

theorem questionMarks_append (a b : String) :
    questionMarks (a ++ b) = questionMarks a + questionMarks b := by
  simp [questionMarks, String.data_append, List.count_append]

theorem Sprintf_file (p : String) : Sprintf "file://%s" [p] = "file://" ++ p := by
  apply String.ext
  simp [Sprintf, sprintfLoop, sprintfExtra]

theorem Sprintf_no_driver (e : String) :
    Sprintf "could not get migrations driver: %s" [e]
      = "could not get migrations driver: " ++ e := by
  apply String.ext
  simp [Sprintf, sprintfLoop, sprintfExtra]

theorem Sprintf_not_initialised (e : String) :
    Sprintf "migrate: could not initialise migrations: %s" [e]
      = "migrate: could not initialise migrations: " ++ e := by
  apply String.ext
  simp [Sprintf, sprintfLoop, sprintfExtra]

/-- With connection options supplied, `Secure` true and `SSL` nil,
`ConnectionString` dereferences the nil `co.SSL` and panics. -/
theorem ConnectionString_secure_no_ssl (co : CockroachOptions) (c : ConnectionOptions)
    (hc : co.ConnectionOptions = some c) (hs : co.Secure = true) (hssl : co.SSL = none) :
    ConnectionString (some co) = .panicked nilDeref := by
  simp [ConnectionString, hc, connSecurity, hs, hssl]

/-- Whenever `ConnectionString` returns for supplied connection options, the
string starts with the base text, which has the form `user@host` and does not
involve `Pass`. -/
theorem ConnectionString_prefix (co : CockroachOptions) (c : ConnectionOptions)
    (hc : co.ConnectionOptions = some c) (s : String) (e : Option Error)
    (h : ConnectionString (some co) = .returned (s, e)) :
    (connBase c).data <+: s.data := by
  cases hs : co.Secure with
  | false =>
    rw [ConnectionString_insecure co c hc hs] at h
    injection h with h
    injection h with h1 _
    rw [← h1]
    simp only [String.data_append, List.append_assoc]
    exact List.prefix_append _ _
  | true =>
    cases hssl : co.SSL with
    | none =>
      rw [ConnectionString_secure_no_ssl co c hc hs hssl] at h
      cases h
    | some ssl =>
      rw [ConnectionString_secure co c ssl hc hs hssl] at h
      injection h with h
      injection h with h1 _
      rw [← h1]
      simp only [String.data_append, List.append_assoc]
      exact List.prefix_append _ _

theorem bearerToken_bearer (r : Request) (token : String)
    (h : r.Authorization = some ("Bearer " ++ token)) : bearerToken r = some token := by
  have hd : ("Bearer " ++ token).data
      = 'B' :: 'e' :: 'a' :: 'r' :: 'e' :: 'r' :: ' ' :: token.data := by
    rw [String.data_append]; rfl
  unfold bearerToken
  rw [h]
  simp only [hd]

theorem failures_valid (lib : TokenLibrary) (key : Nat) (now : Int) (token : String)
    (claims : Claims) (hk : lib.verifySignature token key = none)
    (hi : claims.IssuedAt ≤ now) (hn : claims.NotBefore ≤ now) (he : now < claims.ExpiresAt) :
    failures lib key now token claims = [] := by
  simp only [failures, hk]
  rw [if_neg (not_le.2 he), if_neg (by omega)]
  rfl

theorem failures_expired (lib : TokenLibrary) (key : Nat) (now : Int) (token : String)
    (claims : Claims) (hk : lib.verifySignature token key = none)
    (he : claims.ExpiresAt ≤ now) :
    failures lib key now token claims
      = .expired (now - claims.ExpiresAt).toNat
        :: (if now < claims.NotBefore ∨ now < claims.IssuedAt then [.notValidYet] else []) := by
  simp only [failures, hk]
  rw [if_pos he]
  simp

/-! ## Claims -/

/-- C1: for every `CockroachOptions` whose `ConnectionOptions` is present, with
`Secure = false` and a non-empty `MigrationTable` `T`, `ConnectionString`
returns a nil error and exactly
`postgresql://u@h:p/d?sslmode=disable&x-migrations-table=T`, where `u` is `User`
if non-empty else `root`, `h` is `Host` if non-empty else `localhost`, `p` is the
decimal rendering of `Port` if non-zero else `26257`, and `d` is `Database` if
non-empty else `service`; each default is applied independently of the other
fields. -/
theorem C1_connection_string_insecure (co : CockroachOptions) (c : ConnectionOptions)
    (hc : co.ConnectionOptions = some c) (hs : co.Secure = false)
    (ht : co.MigrationTable ≠ "") :
    ConnectionString (some co) = .returned
      ("postgresql://" ++ (if c.User ≠ "" then c.User else "root")
        ++ "@" ++ (if c.Host ≠ "" then c.Host else "localhost")
        ++ ":" ++ (if c.Port ≠ 0 then Itoa c.Port else "26257")
        ++ "/" ++ (if c.Database ≠ "" then c.Database else "service")
        ++ "?sslmode=disable&x-migrations-table=" ++ co.MigrationTable, none) := by
  have hq : "?sslmode=disable" ++ ("&x-migrations-table=" ++ co.MigrationTable)
      = "?sslmode=disable&x-migrations-table=" ++ co.MigrationTable := by
    rw [← String.append_assoc]; rfl
  rw [ConnectionString_insecure co c hc hs, if_pos ht]
  simp [connBase, String.append_assoc, hq]

/-- Witness for C1: the options of the repository test. -/
theorem C1_connection_string_insecure_witness :
    ConnectionString (some ⟨some ⟨"test-host", 9001, "test-user", "", "test-database"⟩,
        "migration_table", false, none⟩) = .returned
      ("postgresql://" ++ (if "test-user" ≠ "" then "test-user" else "root")
        ++ "@" ++ (if "test-host" ≠ "" then "test-host" else "localhost")
        ++ ":" ++ (if (9001 : Int) ≠ 0 then Itoa 9001 else "26257")
        ++ "/" ++ (if "test-database" ≠ "" then "test-database" else "service")
        ++ "?sslmode=disable&x-migrations-table=" ++ "migration_table", none) :=
  C1_connection_string_insecure
    ⟨some ⟨"test-host", 9001, "test-user", "", "test-database"⟩, "migration_table", false, none⟩
    ⟨"test-host", 9001, "test-user", "", "test-database"⟩ rfl rfl (by decide)

/-- C2: with no options supplied (`ConnectionOptions` nil, `MigrationTable`
empty, `Secure` false, `SSL` nil), `ConnectionString` returns a nil error and
exactly the string built from the defaults user `root`, host `localhost`, port
`26257`, database `service` and migration table `schema_migrations`. -/
theorem C2_connection_string_no_options :
    ConnectionString (some ⟨none, "", false, none⟩) = .returned
      ("postgresql://root@localhost:26257/service?sslmode=disable&x-migrations-table=schema_migrations",
        none)
    ∧ "postgresql://root@localhost:26257/service?sslmode=disable&x-migrations-table=schema_migrations"
      = "postgresql://" ++ DefaultUser ++ "@" ++ DefaultHost ++ ":" ++ DefaultPort ++ "/"
          ++ DefaultDatabase ++ "?sslmode=disable&x-migrations-table=" ++ DefaultMigrationTable := by
  constructor <;> decide

/-- C3, on the code: for every `CockroachOptions` with `ConnectionOptions`
present, `Secure = false` and an empty `MigrationTable`, `ConnectionString`
formats `&x-migrations-table=%s` without an operand, so the returned string
ends with `&x-migrations-table=%!s(MISSING)` and does not end with
`&x-migrations-table=schema_migrations`: the default is not applied. -/
theorem C3_unset_migration_table_not_defaulted (co : CockroachOptions) (c : ConnectionOptions)
    (hc : co.ConnectionOptions = some c) (hs : co.Secure = false)
    (ht : co.MigrationTable = "") :
    ∃ s, ConnectionString (some co) = .returned (s, none)
      ∧ EndsWith s "&x-migrations-table=%!s(MISSING)"
      ∧ ¬ EndsWith s "&x-migrations-table=schema_migrations" := by
  refine ⟨_, ConnectionString_insecure co c hc hs, ?_, ?_⟩
  · simp only [ht, ne_eq, not_true_eq_false, if_false, EndsWith, String.data_append]
    exact List.suffix_append _ _
  · simp only [ht, ne_eq, not_true_eq_false, if_false, EndsWith, String.data_append]
    intro h
    have h1 : "&x-migrations-table=%!s(MISSING)".data
        <:+ (connBase c).data ++ "?sslmode=disable".data
          ++ "&x-migrations-table=%!s(MISSING)".data := List.suffix_append _ _
    have h2 := List.suffix_of_suffix_length_le h1 h (by decide)
    exact absurd h2 (by decide)

/-- Witness for C3: the zero-valued connection options. -/
theorem C3_unset_migration_table_not_defaulted_witness :
    ∃ s, ConnectionString (some ⟨some ⟨"", 0, "", "", ""⟩, "", false, none⟩) = .returned (s, none)
      ∧ EndsWith s "&x-migrations-table=%!s(MISSING)"
      ∧ ¬ EndsWith s "&x-migrations-table=schema_migrations" :=
  C3_unset_migration_table_not_defaulted ⟨some ⟨"", 0, "", "", ""⟩, "", false, none⟩
    ⟨"", 0, "", "", ""⟩ rfl rfl rfl

/-- C4, on the code: for every `CockroachOptions` with `ConnectionOptions`
present, `Secure = true` and SSL material present, `ConnectionString` writes
each of the four SSL parameters after its own `?`
(`?sslcert=..?sslkey=..?sslmode=..?sslrootcert=..`), so the returned string
holds at least four `?` characters, not exactly one. -/
theorem C4_secure_parameters_each_after_question_mark (co : CockroachOptions)
    (c : ConnectionOptions) (ssl : CockroachSSL) (hc : co.ConnectionOptions = some c)
    (hs : co.Secure = true) (hssl : co.SSL = some ssl) :
    ∃ s, ConnectionString (some co) = .returned (s, none)
      ∧ s = connBase c ++ ("?sslcert=" ++ ssl.CertPath ++ ("?sslkey=" ++ ssl.KeyPath)
              ++ ("?sslmode=" ++ ssl.Mode) ++ ("?sslrootcert=" ++ ssl.RootCert))
            ++ (if co.MigrationTable ≠ "" then "&x-migrations-table=" ++ co.MigrationTable
                else "&x-migrations-table=%!s(MISSING)")
      ∧ 4 ≤ questionMarks s := by
  refine ⟨_, ConnectionString_secure co c ssl hc hs hssl, rfl, ?_⟩
  have h1 : questionMarks "?sslcert=" = 1 := by decide
  have h2 : questionMarks "?sslkey=" = 1 := by decide
  have h3 : questionMarks "?sslmode=" = 1 := by decide
  have h4 : questionMarks "?sslrootcert=" = 1 := by decide
  simp only [questionMarks_append, h1, h2, h3, h4]
  omega

/-- Witness for C4: a secure configuration whose values hold no `?` and no `&`. -/
theorem C4_secure_parameters_each_after_question_mark_witness :
    ∃ s, ConnectionString (some ⟨some ⟨"h", 1, "u", "", "d"⟩, "t", true,
        some ⟨"c.crt", "c.key", "verify-full", "ca.crt"⟩⟩) = .returned (s, none)
      ∧ s = connBase ⟨"h", 1, "u", "", "d"⟩
            ++ ("?sslcert=" ++ "c.crt" ++ ("?sslkey=" ++ "c.key")
              ++ ("?sslmode=" ++ "verify-full") ++ ("?sslrootcert=" ++ "ca.crt"))
            ++ (if "t" ≠ "" then "&x-migrations-table=" ++ "t"
                else "&x-migrations-table=%!s(MISSING)")
      ∧ 4 ≤ questionMarks s :=
  C4_secure_parameters_each_after_question_mark
    ⟨some ⟨"h", 1, "u", "", "d"⟩, "t", true, some ⟨"c.crt", "c.key", "verify-full", "ca.crt"⟩⟩
    ⟨"h", 1, "u", "", "d"⟩ ⟨"c.crt", "c.key", "verify-full", "ca.crt"⟩ rfl rfl rfl

/-- C5, on the code: `ConnectionString` on a nil `*CockroachOptions` panics
with a nil pointer dereference, and so does `NewCockroach(path, nil)` on a
path that holds a migration file, before `sql.Open` is reached. -/
theorem C5_nil_options_panics :
    ConnectionString none = .panicked nilDeref
    ∧ @NewCockroach Unit (fun _ => .ok [⟨"1_init.up.sql", 0o644⟩]) (fun _ _ => .ok ())
        "/migrations" none
      = (.panicked nilDeref, [.ReadDir "/migrations", .ConnectionString]) := by
  constructor <;> decide

/-- C6, counterexample: with `ConnectionOptions` nil, `Secure = false` and the
non-empty `MigrationTable` `custom`, the returned string is the default string
and does not end with `&x-migrations-table=custom`. -/
theorem C6_nil_connection_options_ignores_table :
    ("custom" ≠ "" ∧ (⟨none, "custom", false, none⟩ : CockroachOptions).Secure = false)
    ∧ ∃ s, ConnectionString (some ⟨none, "custom", false, none⟩) = .returned (s, none)
      ∧ ¬ EndsWith s ("&x-migrations-table=" ++ "custom") := by
  refine ⟨by decide, _, rfl, ?_⟩
  decide

/-- C6, amended: for every non-empty `MigrationTable` `T` and `Secure = false`,
when `ConnectionOptions` is supplied the string returned by `ConnectionString`
ends with `&x-migrations-table=T`; when `ConnectionOptions` is nil the exact
default string, ending in `&x-migrations-table=schema_migrations`, is
returned whatever `T` is. -/
theorem C6_set_migration_table_rendered (co : CockroachOptions) (hs : co.Secure = false)
    (ht : co.MigrationTable ≠ "") :
    (∀ c, co.ConnectionOptions = some c →
      ∃ s, ConnectionString (some co) = .returned (s, none)
        ∧ EndsWith s ("&x-migrations-table=" ++ co.MigrationTable))
    ∧ (co.ConnectionOptions = none →
      ConnectionString (some co) = .returned
        ("postgresql://root@localhost:26257/service?sslmode=disable&x-migrations-table=schema_migrations",
          none)) := by
  constructor
  · intro c hc
    refine ⟨_, ConnectionString_insecure co c hc hs, ?_⟩
    rw [if_pos ht]
    simp only [EndsWith, String.data_append]
    exact List.suffix_append _ _
  · intro hc
    simp only [ConnectionString, hc]
    decide

/-- Witness for C6: a supplied table with supplied, zero-valued connection options. -/
theorem C6_set_migration_table_rendered_witness :
    (∀ c, (⟨some ⟨"", 0, "", "", ""⟩, "custom", false, none⟩ : CockroachOptions).ConnectionOptions
        = some c →
      ∃ s, ConnectionString (some ⟨some ⟨"", 0, "", "", ""⟩, "custom", false, none⟩)
          = .returned (s, none)
        ∧ EndsWith s ("&x-migrations-table=" ++ "custom"))
    ∧ ((⟨some ⟨"", 0, "", "", ""⟩, "custom", false, none⟩ : CockroachOptions).ConnectionOptions
        = none →
      ConnectionString (some ⟨some ⟨"", 0, "", "", ""⟩, "custom", false, none⟩) = .returned
        ("postgresql://root@localhost:26257/service?sslmode=disable&x-migrations-table=schema_migrations",
          none)) :=
  C6_set_migration_table_rendered ⟨some ⟨"", 0, "", "", ""⟩, "custom", false, none⟩ rfl
    (by decide)

/-- C7: over a modelled filesystem, `migrationsInPath` returns true if and only
if the path is non-empty, the directory listing succeeds, and at least one
entry is a regular file whose extension (the suffix starting at the last `.`
of its name) is exactly `.sql`; it returns false for the empty path without
consulting the filesystem, false for every path whose listing fails, and
entries that are not regular files never count, whatever their names. -/
theorem C7_migrationsInPath_iff (fs : FileSystem) (path : String) :
    ((migrationsInPath fs path).1 = true ↔
      path ≠ "" ∧ ∃ files, fs path = .ok files ∧ ∃ f ∈ files, IsSqlFile f)
    ∧ migrationsInPath fs "" = (false, [])
    ∧ (∀ e, fs path = .error e → (migrationsInPath fs path).1 = false)
    ∧ (∀ files, fs path = .ok files → (∀ f ∈ files, FileMode.IsRegular f.Mode = false) →
        (migrationsInPath fs path).1 = false) := by
  have hiff : (migrationsInPath fs path).1 = true ↔
      path ≠ "" ∧ ∃ files, fs path = .ok files ∧ ∃ f ∈ files, IsSqlFile f := by
    unfold migrationsInPath
    by_cases hp : path = ""
    · simp [hp]
    · have hl : ¬ path.length = 0 := (length_ne_zero_iff path).2 hp
      rw [if_neg hl]
      cases hfs : fs path with
      | error e => simp [hp]
      | ok files => simp [hp, sqlFileIn_iff]
  refine ⟨hiff, by simp [migrationsInPath], ?_, ?_⟩
  · intro e he
    cases hm : (migrationsInPath fs path).1 with
    | false => rfl
    | true =>
      obtain ⟨_, files, hf, _⟩ := hiff.1 hm
      rw [he] at hf
      cases hf
  · intro files hfiles hreg
    cases hm : (migrationsInPath fs path).1 with
    | false => rfl
    | true =>
      obtain ⟨_, files2, hf, f, hmem, hsql⟩ := hiff.1 hm
      rw [hfiles] at hf
      cases hf
      have := hreg f hmem
      rw [hsql.1] at this
      cases this

/-- Witness for C7: a directory holding a directory named `x.sql` and a regular
file `1_init.up.sql`. -/
theorem C7_migrationsInPath_iff_witness :
    (migrationsInPath (fun _ => .ok [⟨"x.sql", ModeDir + 0o755⟩, ⟨"1_init.up.sql", 0o644⟩])
      "/migrations").1 = true :=
  ((C7_migrationsInPath_iff
      (fun _ => .ok [⟨"x.sql", ModeDir + 0o755⟩, ⟨"1_init.up.sql", 0o644⟩]) "/migrations").1).2
    ⟨by decide, _, rfl, ⟨"1_init.up.sql", 0o644⟩, by decide, by decide, by decide⟩

/-- C8: for every path for which `migrationsInPath` is false and for every
`opts` (nil included), `NewCockroach` returns a nil migrator and the error
`migrate: no migration files in given path`, and makes no call beyond those of
`migrationsInPath`: it neither builds the connection string nor opens a
database handle. -/
theorem C8_NewCockroach_no_migrations {DB : Type} (fs : FileSystem)
    (sqlOpen : String → String → Except Error DB) (path : String)
    (opts : Option CockroachOptions) (h : (migrationsInPath fs path).1 = false) :
    NewCockroach fs sqlOpen path opts
      = (.returned (none, some ⟨"migrate: no migration files in given path"⟩),
          (migrationsInPath fs path).2)
    ∧ Call.ConnectionString ∉ (NewCockroach fs sqlOpen path opts).2
    ∧ ∀ driverName conn, Call.sqlOpen driverName conn ∉ (NewCockroach fs sqlOpen path opts).2 := by
  have hN : NewCockroach fs sqlOpen path opts
      = (.returned (none, some ⟨"migrate: no migration files in given path"⟩),
          (migrationsInPath fs path).2) := by
    simp [NewCockroach, h, errorsNew]
  have ht : (migrationsInPath fs path).2 = [] ∨ (migrationsInPath fs path).2 = [.ReadDir path] := by
    unfold migrationsInPath
    split
    · exact Or.inl rfl
    · split <;> exact Or.inr rfl
  refine ⟨hN, ?_, ?_⟩
  · rw [hN]
    rcases ht with ht | ht <;> simp [ht]
  · intro d cn
    rw [hN]
    rcases ht with ht | ht <;> simp [ht]

/-- Witness for C8: a path that does not exist, with nil options. -/
theorem C8_NewCockroach_no_migrations_witness :
    @NewCockroach Unit (fun _ => .error ⟨"no such file or directory"⟩)
        (fun _ _ => .ok ()) "/etc/ihope/i/dont/exist" none
      = (.returned (none, some ⟨"migrate: no migration files in given path"⟩),
          (migrationsInPath (fun _ => .error ⟨"no such file or directory"⟩)
            "/etc/ihope/i/dont/exist").2)
    ∧ Call.ConnectionString ∉ (@NewCockroach Unit
        (fun _ => .error ⟨"no such file or directory"⟩) (fun _ _ => .ok ())
        "/etc/ihope/i/dont/exist" none).2
    ∧ ∀ driverName conn, Call.sqlOpen driverName conn ∉ (@NewCockroach Unit
        (fun _ => .error ⟨"no such file or directory"⟩) (fun _ _ => .ok ())
        "/etc/ihope/i/dont/exist" none).2 :=
  C8_NewCockroach_no_migrations (fun _ => .error ⟨"no such file or directory"⟩)
    (fun _ _ => .ok ()) "/etc/ihope/i/dont/exist" none (by decide)

/-- C9, counterexample: with a driver constructor that fails with `boom`,
`Migrate` does not return an error to its caller: it logs
`could not get migrations driver: boom` and terminates the process with exit
status 1. -/
theorem C9_driver_failure_exits :
    (@Migrate Unit Unit Unit
        ⟨fun _ => .error ⟨"boom"⟩, fun _ _ _ => .ok (), fun _ => none⟩ ⟨(), "/migrations"⟩).1
      = .exited 1 "could not get migrations driver: boom"
    ∧ ¬ ∃ e, (@Migrate Unit Unit Unit
        ⟨fun _ => .error ⟨"boom"⟩, fun _ _ _ => .ok (), fun _ => none⟩ ⟨(), "/migrations"⟩).1
      = .returned (some e) := by
  refine ⟨by decide, ?_⟩
  rintro ⟨e, he⟩
  have h : (@Migrate Unit Unit Unit
        ⟨fun _ => .error ⟨"boom"⟩, fun _ _ _ => .ok (), fun _ => none⟩ ⟨(), "/migrations"⟩).1
      = .exited 1 "could not get migrations driver: boom" := by decide
  rw [h] at he
  cases he

/-- C9, amended: whenever the migration driver cannot be constructed from the
database handle, failing with error `e`, `Migrate` does not return to its
caller: it logs `could not get migrations driver: ` followed by the message of
`e` through `log.Fatalf` and the process terminates with exit status 1, without
constructing the migration instance or running `Up`. -/
theorem C9_driver_failure_is_fatal {DB Driver Instance : Type}
    (lib : Library DB Driver Instance) (c : Cockroach DB) (e : Error)
    (h : lib.WithInstance c.db = .error e) :
    Migrate lib c
      = (.exited 1 ("could not get migrations driver: " ++ e.msg),
          [.WithInstance, .logFatalf ("could not get migrations driver: " ++ e.msg)]) := by
  simp [Migrate, h, Sprintf_no_driver]

/-- Witness for C9: a driver constructor that fails with `boom`. -/
theorem C9_driver_failure_is_fatal_witness :
    @Migrate Unit Unit Unit
        ⟨fun _ => .error ⟨"boom"⟩, fun _ _ _ => .ok (), fun _ => none⟩ ⟨(), "/migrations"⟩
      = (.exited 1 ("could not get migrations driver: " ++ "boom"),
          [.WithInstance, .logFatalf ("could not get migrations driver: " ++ "boom")]) :=
  C9_driver_failure_is_fatal
    ⟨fun _ => .error ⟨"boom"⟩, fun _ _ _ => .ok (), fun _ => none⟩ ⟨(), "/migrations"⟩
    ⟨"boom"⟩ rfl

/-- C10: whenever the driver and the migration instance are constructed, the
value `Migrate` returns is exactly the value `Up` returns (the library error
unchanged when `Up` fails, nil when it succeeds); and when constructing the
migration instance fails with error `e`, `Migrate` returns an error whose
message is `migrate: could not initialise migrations: ` followed by the message
of `e`, without running `Up`. The instance is constructed from the source URL
`file://` followed by the migrations path and the database name `sql`. -/
theorem C10_Migrate_returns_Up {DB Driver Instance : Type}
    (lib : Library DB Driver Instance) (c : Cockroach DB) (driver : Driver)
    (hd : lib.WithInstance c.db = .ok driver) :
    (∀ m, lib.NewWithDatabaseInstance ("file://" ++ c.MigrationsPath) "sql" driver = .ok m →
      (Migrate lib c).1 = .returned (lib.Up m))
    ∧ (∀ e, lib.NewWithDatabaseInstance ("file://" ++ c.MigrationsPath) "sql" driver = .error e →
        (Migrate lib c).1
          = .returned (some ⟨"migrate: could not initialise migrations: " ++ e.msg⟩)
        ∧ Call.Up ∉ (Migrate lib c).2) := by
  constructor
  · intro m hm
    simp [Migrate, hd, Sprintf_file, hm]
  · intro e he
    simp [Migrate, hd, Sprintf_file, he, Errorf, Sprintf_not_initialised]

/-- Witness for C10: a library whose `Up` fails with `dirty database`. -/
theorem C10_Migrate_returns_Up_witness :
    (@Migrate Unit Unit Unit
        ⟨fun _ => .ok (), fun _ _ _ => .ok (), fun _ => some ⟨"dirty database"⟩⟩
        ⟨(), "/migrations"⟩).1
      = .returned (some ⟨"dirty database"⟩) :=
  (@C10_Migrate_returns_Up Unit Unit Unit
    ⟨fun _ => .ok (), fun _ _ _ => .ok (), fun _ => some ⟨"dirty database"⟩⟩
    ⟨(), "/migrations"⟩ () rfl).1 () rfl

/-- C11, counterexample: for the options of the repository test (user
`test-user`, host `test-host`, port 9001, database `test-database`, table
`migration_table`, `Secure = false`), `ConnectionString` returns the string
with the scheme `postgresql://`, not the `cockroach://` string the test expects. -/
theorem C11_scheme_is_not_cockroach :
    ("test-user" ≠ "" ∧ "test-host" ≠ "" ∧ "test-database" ≠ "" ∧ "migration_table" ≠ ""
      ∧ (9001 : Int) ≠ 0)
    ∧ ConnectionString (some ⟨some ⟨"test-host", 9001, "test-user", "", "test-database"⟩,
        "migration_table", false, none⟩)
      = .returned
        ("postgresql://test-user@test-host:9001/test-database?sslmode=disable&x-migrations-table=migration_table",
          none)
    ∧ ConnectionString (some ⟨some ⟨"test-host", 9001, "test-user", "", "test-database"⟩,
        "migration_table", false, none⟩)
      ≠ .returned
        ("cockroach://" ++ "test-user" ++ "@" ++ "test-host" ++ ":" ++ Itoa 9001 ++ "/"
          ++ "test-database" ++ "?sslmode=disable&x-migrations-table=" ++ "migration_table",
          none) := by
  refine ⟨by decide, by decide, by decide⟩

/-- C11, amended: for every non-empty `User` `U`, `Host` `H`, `Database` `D`,
`MigrationTable` `T` and non-zero `Port` `P`, with `Secure = false`,
`ConnectionString` returns a nil error and the string
`postgresql://U@H:P/D?sslmode=disable&x-migrations-table=T`, with `P` in decimal. -/
theorem C11_connection_string_all_fields (co : CockroachOptions) (c : ConnectionOptions)
    (hc : co.ConnectionOptions = some c) (hs : co.Secure = false)
    (hU : c.User ≠ "") (hH : c.Host ≠ "") (hD : c.Database ≠ "") (hP : c.Port ≠ 0)
    (hT : co.MigrationTable ≠ "") :
    ConnectionString (some co) = .returned
      ("postgresql://" ++ c.User ++ "@" ++ c.Host ++ ":" ++ Itoa c.Port ++ "/" ++ c.Database
        ++ "?sslmode=disable&x-migrations-table=" ++ co.MigrationTable, none) := by
  have hq : "?sslmode=disable" ++ ("&x-migrations-table=" ++ co.MigrationTable)
      = "?sslmode=disable&x-migrations-table=" ++ co.MigrationTable := by
    rw [← String.append_assoc]; rfl
  rw [ConnectionString_insecure co c hc hs, if_pos hT]
  simp [connBase, hU, hH, hD, hP, String.append_assoc, hq]

/-- Witness for C11: the options of the repository test. -/
theorem C11_connection_string_all_fields_witness :
    ConnectionString (some ⟨some ⟨"test-host", 9001, "test-user", "", "test-database"⟩,
        "migration_table", false, none⟩) = .returned
      ("postgresql://" ++ "test-user" ++ "@" ++ "test-host" ++ ":" ++ Itoa 9001 ++ "/"
        ++ "test-database" ++ "?sslmode=disable&x-migrations-table=" ++ "migration_table",
        none) :=
  C11_connection_string_all_fields
    ⟨some ⟨"test-host", 9001, "test-user", "", "test-database"⟩, "migration_table", false, none⟩
    ⟨"test-host", 9001, "test-user", "", "test-database"⟩ rfl rfl
    (by decide) (by decide) (by decide) (by decide) (by decide)

/-- C12, counterexample: for the zero-value `CockroachOptions`,
`ConnectionString` does not return the string the repository test expects,
`cockroach://cockroach@localhost:26257/service-db?sslmode=disable&x-migrations-table=schema_migrations`. -/
theorem C12_defaults_are_not_cockroach :
    ConnectionString (some ⟨none, "", false, none⟩) ≠ .returned
      ("cockroach://cockroach@localhost:26257/service-db?sslmode=disable&x-migrations-table=schema_migrations",
        none) := by
  decide

/-- C12, amended: for the zero-value `CockroachOptions` (`ConnectionOptions`
nil, `MigrationTable` empty, `Secure` false, `SSL` nil), `ConnectionString`
returns a nil error and exactly
`postgresql://root@localhost:26257/service?sslmode=disable&x-migrations-table=schema_migrations`:
scheme `postgresql`, user `DefaultUser`, database `DefaultDatabase`. -/
theorem C12_connection_string_zero_value :
    ConnectionString (some ⟨none, "", false, none⟩) = .returned
      ("postgresql://root@localhost:26257/service?sslmode=disable&x-migrations-table=schema_migrations",
        none)
    ∧ DefaultUser = "root" ∧ DefaultDatabase = "service" := by
  refine ⟨by decide, rfl, rfl⟩

/-- C13, on the code: for every `CockroachOptions` with `ConnectionOptions`
present, `Secure = true` and `SSL` nil, `ConnectionString` does not return: it
dereferences the nil `co.SSL` while formatting `?sslcert=` and panics. -/
theorem C13_secure_without_ssl_panics (co : CockroachOptions) (c : ConnectionOptions)
    (hc : co.ConnectionOptions = some c) (hs : co.Secure = true) (hssl : co.SSL = none) :
    ConnectionString (some co) = .panicked nilDeref
    ∧ ¬ ∃ s e, ConnectionString (some co) = .returned (s, e) := by
  have h := ConnectionString_secure_no_ssl co c hc hs hssl
  refine ⟨h, ?_⟩
  rintro ⟨s, e, hr⟩
  rw [h] at hr
  cases hr

/-- Witness for C13: supplied connection options, `Secure` set, no SSL material. -/
theorem C13_secure_without_ssl_panics_witness :
    ConnectionString (some ⟨some ⟨"h", 1, "u", "", "d"⟩, "t", true, none⟩) = .panicked nilDeref
    ∧ ¬ ∃ s e, ConnectionString (some ⟨some ⟨"h", 1, "u", "", "d"⟩, "t", true, none⟩)
        = .returned (s, e) :=
  C13_secure_without_ssl_panics ⟨some ⟨"h", 1, "u", "", "d"⟩, "t", true, none⟩
    ⟨"h", 1, "u", "", "d"⟩ rfl rfl rfl

/-- C14: for every claims with issued-at `≤ now` and not-before `≤ now <`
expires-at, carried by a token whose signature verifies under the key the
broker supplies and presented as `Authorization: Bearer <token>`,
`HandlerValidateJWT` invokes the downstream handler exactly once, writes no
response of its own, and `ConsumerFromContext` on the context of the request
the handler receives returns the consumer of the claims, so the same `ID`; the
other context values are unchanged. -/
theorem C14_valid_token_dispatches (lib : TokenLibrary) (broker : Nat) (now : Int)
    (next : HandlerFunc) (r : Request) (token : String) (claims : Claims)
    (hh : r.Authorization = some ("Bearer " ++ token))
    (hd : lib.decode token = some claims)
    (hk : lib.verifySignature token broker = none)
    (hi : claims.IssuedAt ≤ now) (hn : claims.NotBefore ≤ now) (he : now < claims.ExpiresAt) :
    ∃ r2, (HandlerValidateJWT lib broker now next r).dispatched = [r2]
      ∧ (HandlerValidateJWT lib broker now next r).written = []
      ∧ (HandlerValidateJWT lib broker now next r).downstream = next r2
      ∧ ConsumerFromContext r2.ctx = claims.Consumer
      ∧ (ConsumerFromContext r2.ctx).ID = claims.Consumer.ID
      ∧ r2.ctx.values = r.ctx.values := by
  have hv : verifyToken lib broker now token = .ok claims := by
    simp only [verifyToken, hd, failures_valid lib broker now token claims hk hi hn he]
  refine ⟨⟨r.Authorization, ⟨some claims.Consumer, r.ctx.values⟩⟩, ?_⟩
  simp [HandlerValidateJWT, bearerToken_bearer r token hh, hv, ConsumerFromContext]

/-- Witness for C14: the good token of the repository test, consumer 5, issued
two hours ago, valid since one hour, expiring in one hour. -/
theorem C14_valid_token_dispatches_witness :
    ∃ r2, (HandlerValidateJWT
        ⟨fun s => if s = "tok" then some ⟨2800, 6400, 13600, ⟨5, ["test.grant"]⟩⟩ else none,
          fun _ k => if k = 1 then none else some "crypto/rsa: verification error", "no token",
          fun _ => 0⟩
        1 10000 (fun _ => [⟨200, ⟨200, "", some "consumer"⟩⟩])
        ⟨some ("Bearer " ++ "tok"), ⟨none, []⟩⟩).dispatched = [r2]
      ∧ (HandlerValidateJWT
        ⟨fun s => if s = "tok" then some ⟨2800, 6400, 13600, ⟨5, ["test.grant"]⟩⟩ else none,
          fun _ k => if k = 1 then none else some "crypto/rsa: verification error", "no token",
          fun _ => 0⟩
        1 10000 (fun _ => [⟨200, ⟨200, "", some "consumer"⟩⟩])
        ⟨some ("Bearer " ++ "tok"), ⟨none, []⟩⟩).written = []
      ∧ (HandlerValidateJWT
        ⟨fun s => if s = "tok" then some ⟨2800, 6400, 13600, ⟨5, ["test.grant"]⟩⟩ else none,
          fun _ k => if k = 1 then none else some "crypto/rsa: verification error", "no token",
          fun _ => 0⟩
        1 10000 (fun _ => [⟨200, ⟨200, "", some "consumer"⟩⟩])
        ⟨some ("Bearer " ++ "tok"), ⟨none, []⟩⟩).downstream
          = (fun _ => [⟨200, ⟨200, "", some "consumer"⟩⟩]) r2
      ∧ ConsumerFromContext r2.ctx = (⟨2800, 6400, 13600, ⟨5, ["test.grant"]⟩⟩ : Claims).Consumer
      ∧ (ConsumerFromContext r2.ctx).ID
          = (⟨2800, 6400, 13600, ⟨5, ["test.grant"]⟩⟩ : Claims).Consumer.ID
      ∧ r2.ctx.values = (⟨some ("Bearer " ++ "tok"), ⟨none, []⟩⟩ : Request).ctx.values :=
  C14_valid_token_dispatches
    ⟨fun s => if s = "tok" then some ⟨2800, 6400, 13600, ⟨5, ["test.grant"]⟩⟩ else none,
      fun _ k => if k = 1 then none else some "crypto/rsa: verification error", "no token",
          fun _ => 0⟩
    1 10000 (fun _ => [⟨200, ⟨200, "", some "consumer"⟩⟩])
    ⟨some ("Bearer " ++ "tok"), ⟨none, []⟩⟩ "tok" ⟨2800, 6400, 13600, ⟨5, ["test.grant"]⟩⟩
    rfl rfl rfl (by decide) (by decide) (by decide)

/-- C15, counterexample: a token that expired one minute ago and whose
not-before lies one minute ahead, signed with the key of the broker, with a
library that reports the later of two failures: the middleware answers 401
with the message `token is not valid yet`, not `token is expired by 1m0s`. -/
theorem C15_expired_and_not_yet_valid :
    ((⟨2800, 10060, 9940, ⟨5, ["test.grant"]⟩⟩ : Claims).ExpiresAt ≤ 10000)
    ∧ (HandlerValidateJWT
        ⟨fun s => if s = "tok" then some ⟨2800, 10060, 9940, ⟨5, ["test.grant"]⟩⟩ else none,
          fun _ k => if k = 1 then none else some "crypto/rsa: verification error", "no token",
          fun _ => 1⟩
        1 10000 (fun _ => [⟨200, ⟨200, "", some "consumer"⟩⟩])
        ⟨some ("Bearer " ++ "tok"), ⟨none, []⟩⟩).written
      = [⟨401, ⟨401, "token is not valid yet", none⟩⟩]
    ∧ (HandlerValidateJWT
        ⟨fun s => if s = "tok" then some ⟨2800, 10060, 9940, ⟨5, ["test.grant"]⟩⟩ else none,
          fun _ k => if k = 1 then none else some "crypto/rsa: verification error", "no token",
          fun _ => 1⟩
        1 10000 (fun _ => [⟨200, ⟨200, "", some "consumer"⟩⟩])
        ⟨some ("Bearer " ++ "tok"), ⟨none, []⟩⟩).written
      ≠ [⟨401, ⟨401, "token is expired by " ++ durationString (10000 - 9940 : Int).toNat,
            none⟩⟩] := by
  refine ⟨by decide, by decide, by decide⟩

/-- C15, amended: for every claims with expires-at `≤ now`, carried by a bearer
token whose signature verifies under the key of the broker, `HandlerValidateJWT`
does not invoke the downstream handler and writes one response: HTTP status
401 and the envelope with code 401 and null data. Its message is
`token is expired by <now - expires-at>` whenever the token is not also not
valid yet (not-before `≤ now` and issued-at `≤ now`), one minute giving
`token is expired by 1m0s`; for a token that is also not valid yet it is that
message or `token is not valid yet`. -/
theorem C15_expired_token_unauthorized (lib : TokenLibrary) (broker : Nat) (now : Int)
    (next : HandlerFunc) (r : Request) (token : String) (claims : Claims)
    (hh : r.Authorization = some ("Bearer " ++ token))
    (hd : lib.decode token = some claims)
    (hk : lib.verifySignature token broker = none)
    (he : claims.ExpiresAt ≤ now) :
    ∃ msg, HandlerValidateJWT lib broker now next r = ⟨[⟨401, ⟨401, msg, none⟩⟩], [], []⟩
      ∧ (msg = "token is expired by " ++ durationString (now - claims.ExpiresAt).toNat
          ∨ msg = "token is not valid yet")
      ∧ (claims.NotBefore ≤ now → claims.IssuedAt ≤ now →
          msg = "token is expired by " ++ durationString (now - claims.ExpiresAt).toNat)
      ∧ (claims.NotBefore ≤ now → claims.IssuedAt ≤ now → now - claims.ExpiresAt = 60 →
          msg = "token is expired by 1m0s") := by
  have hf := failures_expired lib broker now token claims hk he
  by_cases hny : now < claims.NotBefore ∨ now < claims.IssuedAt
  · rw [if_pos hny] at hf
    have hlt : lib.choice [.expired (now - claims.ExpiresAt).toNat, .notValidYet] % 2 < 2 :=
      Nat.mod_lt _ (by decide)
    have hcases : lib.choice [.expired (now - claims.ExpiresAt).toNat, .notValidYet] % 2 = 0
        ∨ lib.choice [.expired (now - claims.ExpiresAt).toNat, .notValidYet] % 2 = 1 := by
      omega
    rcases hcases with h0 | h1
    · refine ⟨"token is expired by " ++ durationString (now - claims.ExpiresAt).toNat,
        ?_, Or.inl rfl, fun _ _ => rfl, fun hn hi => ?_⟩
      · simp [HandlerValidateJWT, bearerToken_bearer r token hh, verifyToken, hd, hf, h0,
          Failure.reason, unauthorized, StatusUnauthorized]
      · exact absurd hny (by omega)
    · refine ⟨"token is not valid yet", ?_, Or.inr rfl, fun hn hi => ?_, fun hn hi => ?_⟩
      · simp [HandlerValidateJWT, bearerToken_bearer r token hh, verifyToken, hd, hf, h1,
          Failure.reason, unauthorized, StatusUnauthorized]
      · exact absurd hny (by omega)
      · exact absurd hny (by omega)
  · rw [if_neg hny] at hf
    refine ⟨"token is expired by " ++ durationString (now - claims.ExpiresAt).toNat,
      ?_, Or.inl rfl, fun _ _ => rfl, fun _ _ h60 => ?_⟩
    · simp [HandlerValidateJWT, bearerToken_bearer r token hh, verifyToken, hd, hf,
        Failure.reason, unauthorized, StatusUnauthorized]
    · rw [h60]
      decide

/-- Witness for C15: the expired token of the repository test, expired one
minute ago and valid since one hour. -/
theorem C15_expired_token_unauthorized_witness :
    ∃ msg, HandlerValidateJWT
        ⟨fun s => if s = "tok" then some ⟨2800, 6400, 9940, ⟨5, ["test.grant"]⟩⟩ else none,
          fun _ k => if k = 1 then none else some "crypto/rsa: verification error", "no token",
          fun _ => 0⟩
        1 10000 (fun _ => [⟨200, ⟨200, "", some "consumer"⟩⟩])
        ⟨some ("Bearer " ++ "tok"), ⟨none, []⟩⟩
      = ⟨[⟨401, ⟨401, msg, none⟩⟩], [], []⟩
      ∧ msg = "token is expired by 1m0s" :=
  match C15_expired_token_unauthorized
    ⟨fun s => if s = "tok" then some ⟨2800, 6400, 9940, ⟨5, ["test.grant"]⟩⟩ else none,
      fun _ k => if k = 1 then none else some "crypto/rsa: verification error", "no token",
      fun _ => 0⟩
    1 10000 (fun _ => [⟨200, ⟨200, "", some "consumer"⟩⟩])
    ⟨some ("Bearer " ++ "tok"), ⟨none, []⟩⟩ "tok" ⟨2800, 6400, 9940, ⟨5, ["test.grant"]⟩⟩
    rfl rfl rfl (by decide) with
  | ⟨msg, hS, _, _, h60⟩ => ⟨msg, hS, h60 (by decide) (by decide) (by decide)⟩

/-- C16: the password is never rendered and never influences the result: for
any two `CockroachOptions` that differ at most in `ConnectionOptions.Pass`,
`ConnectionString` ends the same way, with the same string and the same error;
and whenever it returns for supplied connection options, the string starts
with `postgresql://user@host:port/database`, user and host with their
defaults, with nothing between the user and the `@`. -/
theorem C16_password_not_rendered (a b : CockroachOptions) (h : SameButPass a b) :
    ConnectionString (some a) = ConnectionString (some b)
    ∧ ∀ c s e, a.ConnectionOptions = some c → ConnectionString (some a) = .returned (s, e) →
        (connBase c).data <+: s.data := by
  refine ⟨?_, fun c s e hc hr => ConnectionString_prefix a c hc s e hr⟩
  obtain ⟨ca, ta, sa, la⟩ := a
  obtain ⟨cb, tb, sb, lb⟩ := b
  obtain ⟨ht, hs, hl, hc⟩ := h
  simp only at ht hs hl hc
  subst ht hs hl
  cases ca with
  | none =>
    cases cb with
    | none => rfl
    | some y => exact absurd hc (by simp)
  | some x =>
    cases cb with
    | none => exact absurd hc (by simp)
    | some y =>
      obtain ⟨xh, xp, xu, xpass, xd⟩ := x
      obtain ⟨yh, yp, yu, ypass, yd⟩ := y
      simp only at hc
      obtain ⟨h1, h2, h3, h4⟩ := hc
      subst h1 h2 h3 h4
      rfl

/-- Witness for C16: two passwords for otherwise equal options. -/
theorem C16_password_not_rendered_witness :
    ConnectionString (some ⟨some ⟨"h", 1, "u", "secret", "d"⟩, "t", false, none⟩)
      = ConnectionString (some ⟨some ⟨"h", 1, "u", "", "d"⟩, "t", false, none⟩) :=
  (C16_password_not_rendered ⟨some ⟨"h", 1, "u", "secret", "d"⟩, "t", false, none⟩
    ⟨some ⟨"h", 1, "u", "", "d"⟩, "t", false, none⟩
    ⟨rfl, rfl, rfl, rfl, rfl, rfl, rfl⟩).1

end MicroserviceCore
